import Mathlib

/-!
Shallow embedding of the chit-fund record-keeping application
(src/foremenapp/foremen3.py and src/foremenapp/DHARMAREDDY.py).

Pure calculations (`add_months`, `calculate_installment`, `calculate_dividend`)
become Lean functions over `Nat`/`Int`/`Rat`.  Database-backed operations become
explicit state passing over lists of rows mirroring the SQL tables
(ChitGroups, Subscribers, Enrollments, Installments, InstallmentPayments,
Chits, Dividends).  Randomly generated UUIDs and the wall clock
(`uuid.uuid4()`, `datetime.now()`) are injected as explicit parameters.
-/

/-- A Python `datetime.date`: year, month (1..12), day (1..31). -/
structure PyDate where
  year : Nat
  month : Nat
  day : Nat
deriving DecidableEq

/-- Python `calendar.isleap(y)`. -/
def isleap (y : Nat) : Bool :=
  (y % 4 == 0 && y % 100 != 0) || y % 400 == 0

/-- Python `calendar.monthrange(y, m)[1]`: the number of days of month `m`
of year `y` (only ever applied at `1 ≤ m ≤ 12`). -/
def monthrange_days (y m : Nat) : Nat :=
  if m == 2 then (if isleap y then 29 else 28)
  else if m == 4 || m == 6 || m == 9 || m == 11 then 30
  else 31

/-- `add_months` from foremen3.py (lines 63-70):
`month = sourcedate.month - 1 + months`, `year = sourcedate.year + month // 12`,
`month = month % 12 + 1`, `day = min(sourcedate.day, monthrange(year, month)[1])`. -/
def add_months (sourcedate : PyDate) (months : Nat) : PyDate :=
  let month0 := sourcedate.month - 1 + months
  let year := sourcedate.year + month0 / 12
  let month := month0 % 12 + 1
  let day := min sourcedate.day (monthrange_days year month)
  ⟨year, month, day⟩

/-- The invariant of Python `datetime.date`: the month is in 1..12 and the day
is in 1..(length of that month). -/
def PyDate.Valid (d : PyDate) : Prop :=
  1 ≤ d.month ∧ d.month ≤ 12 ∧ 1 ≤ d.day ∧ d.day ≤ monthrange_days d.year d.month

instance (d : PyDate) : Decidable d.Valid := by
  unfold PyDate.Valid; infer_instance

/-- Modelled from the spec (§4.3): "advance by N months" means: add N to the
month component with year carry, then clamp the day to the last valid day of
the resulting month.  Stated for comparison with `add_months` from the code. -/
def advance_by_months_spec (d : PyDate) (n : Nat) : PyDate :=
  let totalMonths := (d.month - 1) + n
  let newYear := d.year + totalMonths / 12
  let newMonth := totalMonths % 12 + 1
  ⟨newYear, newMonth, min d.day (monthrange_days newYear newMonth)⟩

/-- Adding zero months to a valid date returns the date itself. -/
theorem add_months_zero (d : PyDate) (h : d.Valid) : add_months d 0 = d := by
  obtain ⟨h1, h2, _h3, h4⟩ := h
  unfold add_months
  have hdiv : (d.month - 1 + 0) / 12 = 0 := Nat.div_eq_of_lt (by omega)
  have hmod : (d.month - 1 + 0) % 12 = d.month - 1 := Nat.mod_eq_of_lt (by omega)
  cases d with
  | mk y m dy =>
    simp only at h1 h2 h4 hdiv hmod ⊢
    simp only [Nat.add_zero, PyDate.mk.injEq]
    have hm2 : m - 1 + 1 = m := by omega
    have hdiv2 : (m - 1) / 12 = 0 := Nat.div_eq_of_lt (by omega)
    have hmod2 : (m - 1) % 12 = m - 1 := Nat.mod_eq_of_lt (by omega)
    rw [hdiv2, hmod2, hm2, Nat.add_zero]
    exact ⟨rfl, rfl, by omega⟩

/-- `calculate_installment` from DHARMAREDDY.py (lines 14-26):
returns `chit_value / duration` when `duration > 0`, else 0. -/
def calculate_installment (chit_value : ℚ) (duration : ℤ) : ℚ :=
  if 0 < duration then chit_value / (duration : ℚ) else 0

/-- `calculate_dividend` from DHARMAREDDY.py (lines 28-44):
`discount = chit_value * (d/100)`, `commission = chit_value * (c/100)`,
`(discount - commission) / (num_members - 1)` when `num_members > 1`, else 0. -/
def calculate_dividend (chit_value winning_bid_discount_percentage
    foreman_commission_percentage : ℚ) (num_members : ℤ) : ℚ :=
  let discount_amount := chit_value * (winning_bid_discount_percentage / 100)
  let foreman_commission := chit_value * (foreman_commission_percentage / 100)
  if 1 < num_members then
    (discount_amount - foreman_commission) / ((num_members - 1 : ℤ) : ℚ)
  else 0

/-- A row of the `Installments` table (foremen3.py).  The BINARY(16) UUIDs are
modelled as `Nat` identifiers. -/
structure Installment where
  id : Nat
  groupId : Nat
  monthNumber : Nat
  dueDate : PyDate
  isAuctionConducted : Bool
  isCompleted : Bool
deriving DecidableEq

/-- `generate_installments_for_group` from foremen3.py (lines 423-472).
The state is the `Installments` table; `freshId` injects the fresh UUID drawn
by `uuid.uuid4()` for each month.  If any installment rows for the group exist
(`SELECT COUNT(*) ... > 0`) the call fails returning `false` with the state
unchanged; otherwise one row per `month_num` in `range(1, duration + 1)` is
inserted with `dueDate = add_months start_date (month_num - 1)` and both flags
false. -/
def generate_installments_for_group (db : List Installment) (group_id : Nat)
    (start_date : PyDate) (duration : Nat) (freshId : Nat → Nat) :
    Bool × List Installment :=
  if 0 < (db.filter (fun i => i.groupId == group_id)).length then
    (false, db)
  else
    (true, db ++ (List.range duration).map (fun k =>
      ⟨freshId (k + 1), group_id, k + 1, add_months start_date k, false, false⟩))

/-- The installment rows belonging to `group_id` after a call to
`generate_installments_for_group`. -/
def generatedFor (db : List Installment) (group_id : Nat) (start_date : PyDate)
    (duration : Nat) (freshId : Nat → Nat) : List Installment :=
  (generate_installments_for_group db group_id start_date duration freshId).2.filter
    (fun i => i.groupId == group_id)

/-- A row of the `ChitGroups` table (foremen3.py). -/
structure ChitGroup where
  id : Nat
  name : String
  value : ℚ
  numberOfSubscribers : ℤ
  duration : ℤ
  startDate : PyDate
  foremanCommissionPercentage : Option ℚ
  isActive : Bool
deriving DecidableEq

/-- `insert_group` from foremen3.py (lines 118-159): unconditionally inserts a
`ChitGroups` row with a fresh UUID (injected as `new_id`) and `isActive = true`,
returning the success flag `True`. -/
def insert_group (db : List ChitGroup) (new_id : Nat) (name : String) (value : ℚ)
    (num_subscribers duration : ℤ) (start_date : PyDate) (commission : Option ℚ) :
    Bool × List ChitGroup :=
  (true, db ++ [⟨new_id, name, value, num_subscribers, duration, start_date,
    commission, true⟩])

/-- The "Add Group" form handler from foremen3.py (lines 762-790): calls
`insert_group` when `name and value > 0 and num_subscribers > 0 and
duration > 0 and start_date` holds (a date object is always truthy), otherwise
shows a warning and inserts nothing.  The commission, parsed from a free text
field, is passed through with no range check. -/
def add_group_form (db : List ChitGroup) (new_id : Nat) (name : String) (value : ℚ)
    (num_subscribers duration : ℤ) (start_date : PyDate) (commission : Option ℚ) :
    Bool × List ChitGroup :=
  if name ≠ "" ∧ 0 < value ∧ 0 < num_subscribers ∧ 0 < duration then
    insert_group db new_id name value num_subscribers duration start_date commission
  else
    (false, db)

/-- A row of the `Subscribers` table (foremen3.py).  `createdDate` is a
timestamp modelled as `Nat`. -/
structure Subscriber where
  id : Nat
  name : String
  phoneNumber : String
  address : String
  createdDate : Nat
  isActive : Bool
deriving DecidableEq

/-- `insert_subscriber` from foremen3.py (lines 235-271): inserts a row with
`createdDate = datetime.datetime.now()` (the wall clock, injected as `now`)
and `isActive = true`. -/
def insert_subscriber (db : List Subscriber) (new_id : Nat)
    (name phone address : String) (now : Nat) : Bool × List Subscriber :=
  (true, db ++ [⟨new_id, name, phone, address, now, true⟩])

/-- A row of the `Enrollments` table (foremen3.py). -/
structure Enrollment where
  id : Nat
  subscriberId : Nat
  groupId : Nat
  assignedChitNumber : Nat
  joinDate : PyDate
deriving DecidableEq

/-- `insert_enrollment` from foremen3.py (lines 345-380): inserts a row whose
`joinDate` is the caller-supplied date (uniqueness conflicts are raised by the
database, not by this code path, and are not modelled). -/
def insert_enrollment (db : List Enrollment) (new_id subscriber_id group_id
    assigned_number : Nat) (join_date : PyDate) : Bool × List Enrollment :=
  (true, db ++ [⟨new_id, subscriber_id, group_id, assigned_number, join_date⟩])

/-- A row of the `InstallmentPayments` table (foremen3.py).  `paymentDate` is a
timestamp modelled as `Nat`. -/
structure Payment where
  id : Nat
  installmentId : Nat
  subscriberId : Nat
  paymentDate : Nat
  amountPaid : ℚ
  notes : String
deriving DecidableEq

/-- `insert_payment` from foremen3.py (lines 555-588): unconditionally inserts
a row with `paymentDate = datetime.datetime.now()` (the wall clock, injected
as `now`). -/
def insert_payment (db : List Payment) (new_id installment_id subscriber_id : Nat)
    (amount_paid : ℚ) (notes : String) (now : Nat) : Bool × List Payment :=
  (true, db ++ [⟨new_id, installment_id, subscriber_id, now, amount_paid, notes⟩])

/-- The "Record Payment" form handler from foremen3.py (lines 1186-1193):
calls `insert_payment` when `amount_paid > 0`, otherwise warns and inserts
nothing. -/
def record_payment_form (db : List Payment) (new_id installment_id
    subscriber_id : Nat) (amount_paid : ℚ) (notes : String) (now : Nat) :
    Bool × List Payment :=
  if 0 < amount_paid then
    insert_payment db new_id installment_id subscriber_id amount_paid notes now
  else
    (false, db)

/-- The tables consulted by the dues/status report of foremen3.py. -/
structure DuesDB where
  installments : List Installment
  enrollments : List Enrollment
  subscribers : List Subscriber
  payments : List Payment

/-- `SUM(ip.amountPaid)` over the payments joined on
`ip.installmentId = installment_id AND ip.subscriberId = subscriber_id`
(a missing sum, i.e. no matching payment, is the empty sum 0). -/
def paymentSum (payments : List Payment) (installment_id subscriber_id : Nat) : ℚ :=
  ((payments.filter (fun p =>
    p.installmentId == installment_id && p.subscriberId == subscriber_id)).map
      (fun p => p.amountPaid)).sum

/-- `SELECT id FROM Installments WHERE groupId = %s AND monthNumber = %s`
(fetchone: the first matching row). -/
def findInstallment (db : DuesDB) (group_id month_number : Nat) :
    Option Installment :=
  db.installments.find? (fun i =>
    i.groupId == group_id && i.monthNumber == month_number)

/-- One row of the status list built by
`get_payment_status_for_installment` (the keys "Subscriber Name",
"Chit Number", "Status", "Total Paid (This Installment)"). -/
structure StatusRow where
  subscriberName : String
  chitNumber : Nat
  status : String
  totalPaid : ℚ
deriving DecidableEq

/-- `get_payment_status_for_installment` from foremen3.py (lines 629-687).
Finds the installment of `(group_id, month_number)`; for every enrollment of
the group joined with its subscriber row (`JOIN Subscribers`), ordered by
`assignedChitNumber`, sums that subscriber's payments against the installment
and classifies `"Paid"` when the sum is positive, `"Due"` otherwise. -/
def get_payment_status_for_installment (db : DuesDB)
    (group_id month_number : Nat) : List StatusRow :=
  match findInstallment db group_id month_number with
  | none => []
  | some inst =>
    let ens := (db.enrollments.filter (fun e => e.groupId == group_id)).insertionSort
      (fun a b => a.assignedChitNumber ≤ b.assignedChitNumber)
    ens.filterMap (fun e =>
      (db.subscribers.find? (fun s => s.id == e.subscriberId)).map (fun s =>
        let total := paymentSum db.payments inst.id e.subscriberId
        ⟨s.name, e.assignedChitNumber,
          if 0 < total then "Paid" else "Due", total⟩))

/-- A row of the `Chits` table (DHARMAREDDY.py). -/
structure Chit where
  chit_id : String
  chit_value : ℚ
  duration : ℤ
  foreman_commission_percentage : ℚ
  start_date : PyDate
  installment_amount : ℚ
deriving DecidableEq

/-- The "Add New Chit Fund" form handler from DHARMAREDDY.py (lines 174-192):
when `chit_id and chit_value > 0 and duration > 0` holds, inserts a `Chits` row
with `installment_amount = calculate_installment(chit_value, duration)`. -/
def new_chit_form (db : List Chit) (chit_id : String) (chit_value : ℚ)
    (duration : ℤ) (foreman_commission : ℚ) (start_date : PyDate) :
    Bool × List Chit :=
  if chit_id ≠ "" ∧ 0 < chit_value ∧ 0 < duration then
    (true, db ++ [⟨chit_id, chit_value, duration, foreman_commission, start_date,
      calculate_installment chit_value duration⟩])
  else
    (false, db)

/-- The "Edit Existing Chit Fund" form handler from DHARMAREDDY.py
(lines 195-216): `UPDATE Chits SET chit_value, duration,
foreman_commission_percentage, start_date, installment_amount WHERE chit_id`,
with `installment_amount = calculate_installment(edit_chit_value,
edit_duration)`. -/
def edit_chit_form (db : List Chit) (chit_id : String) (chit_value : ℚ)
    (duration : ℤ) (foreman_commission : ℚ) (start_date : PyDate) : List Chit :=
  db.map (fun c =>
    if c.chit_id = chit_id then
      ⟨chit_id, chit_value, duration, foreman_commission, start_date,
        calculate_installment chit_value duration⟩
    else c)

/-- The Group invariant claimed in the spec (§3): every stored chit's
`installment_amount` equals `chit_value / duration`. -/
def ChitInvariant (db : List Chit) : Prop :=
  ∀ c ∈ db, c.installment_amount = c.chit_value / (c.duration : ℚ)

/-- A row of the `Dividends` table (DHARMAREDDY.py). -/
structure Dividend where
  chit_id : String
  member_id : Nat
  auction_date : PyDate
  dividend_amount : ℚ
  distribution_date : PyDate
deriving DecidableEq

/-- The dividend distribution loop from DHARMAREDDY.py (lines 478-484): for
every member of the chit other than the auction winner, inserts a `Dividends`
row carrying the shared `dividend_amount` and
`distribution_date = datetime.now().date()` (the wall clock, injected as
`today`). -/
def distribute_dividend (db : List Dividend) (chit_id : String)
    (members : List Nat) (winner_id : Nat) (auction_date : PyDate)
    (dividend_amount : ℚ) (today : PyDate) : List Dividend :=
  db ++ (members.filter (fun m => m ≠ winner_id)).map (fun m =>
    ⟨chit_id, m, auction_date, dividend_amount, today⟩)

/-- C2: for every date and every non-negative month count, `add_months` adds
the months to the month component with year carry and clamps the day to the
last valid day of the resulting month (it agrees with the spec's
advance-and-clamp rule); in particular Jan-31 advanced by 1 month is Feb-28 in
a non-leap year and Feb-29 in a leap year, and Jan-31 advanced by 13 months is
Feb-28/29 of the following year. -/
theorem claim_C2_add_months_clamps :
    (∀ y : Nat, add_months ⟨y, 1, 31⟩ 1 = ⟨y, 2, if isleap y then 29 else 28⟩) ∧
    (∀ y : Nat, add_months ⟨y, 1, 31⟩ 13 =
      ⟨y + 1, 2, if isleap (y + 1) then 29 else 28⟩) ∧
    (∀ (d : PyDate) (n : Nat), add_months d n = advance_by_months_spec d n) := by
  refine ⟨?_, ?_, fun d n => rfl⟩
  · intro y
    show PyDate.mk (y + 1 / 12) (1 % 12 + 1) _ = _
    norm_num [monthrange_days]
    cases isleap y <;> simp
  · intro y
    show PyDate.mk (y + 13 / 12) (13 % 12 + 1) _ = _
    norm_num [monthrange_days]
    cases isleap (y + 1) <;> simp

/-- C3: `calculate_dividend` returns `(x*d/100 − x*c/100)/(n−1)` when `n > 1`
and `0` when `n ≤ 1`; in particular it returns `(5000 − 2000)/19` at
`(100000, 5, 2, 20)`, and a negative commission-exceeds-discount result is
returned as-is rather than rejected. -/
theorem claim_C3_calculate_dividend :
    (∀ (x d c : ℚ) (n : ℤ), 1 < n →
      calculate_dividend x d c n = (x * d / 100 - x * c / 100) / ((n : ℚ) - 1)) ∧
    (∀ (x d c : ℚ) (n : ℤ), n ≤ 1 → calculate_dividend x d c n = 0) ∧
    calculate_dividend 100000 5 2 20 = (5000 - 2000) / 19 ∧
    calculate_dividend 100000 2 5 20 = -((5000 - 2000) / 19) := by
  refine ⟨?_, ?_, by norm_num [calculate_dividend], by norm_num [calculate_dividend]⟩
  · intro x d c n hn
    unfold calculate_dividend
    rw [if_pos hn]
    push_cast
    ring
  · intro x d c n hn
    unfold calculate_dividend
    rw [if_neg (by omega)]

/-- Witness for C3: the general formula evaluated at `n = 5` and the
degenerate case at `n = 0`. -/
theorem claim_C3_witness :
    calculate_dividend 1 2 3 5 = (1 * 2 / 100 - 1 * 3 / 100) / (((5 : ℤ) : ℚ) - 1) ∧
    calculate_dividend 1 2 3 0 = 0 :=
  ⟨claim_C3_calculate_dividend.1 1 2 3 5 (by decide),
   claim_C3_calculate_dividend.2.1 1 2 3 0 (by decide)⟩

/-- C10: for every chit value, `calculate_installment` returns 0 whenever the
duration is zero or negative, and only performs the division when the duration
is positive. -/
theorem claim_C10_installment_total :
    ∀ (v : ℚ) (d : ℤ),
      (d ≤ 0 → calculate_installment v d = 0) ∧
      (0 < d → calculate_installment v d = v / (d : ℚ)) := by
  intro v d
  constructor
  · intro h
    unfold calculate_installment
    rw [if_neg (by omega)]
  · intro h
    unfold calculate_installment
    rw [if_pos h]

/-- Witness for C10: a negative and a positive duration. -/
theorem claim_C10_witness :
    calculate_installment 5 (-3) = 0 ∧
    calculate_installment 10 4 = 10 / ((4 : ℤ) : ℚ) :=
  ⟨(claim_C10_installment_total 5 (-3)).1 (by decide),
   (claim_C10_installment_total 10 4).2 (by decide)⟩

/-- C4: when installment rows for the group already exist, generation fails
(returns the failure flag `false`) and the installments table is completely
unchanged: no rows inserted, none modified. -/
theorem claim_C4_regenerate_rejected (db : List Installment) (group_id : Nat)
    (start_date : PyDate) (duration : Nat) (freshId : Nat → Nat)
    (h : db.filter (fun i => i.groupId == group_id) ≠ []) :
    generate_installments_for_group db group_id start_date duration freshId =
      (false, db) := by
  unfold generate_installments_for_group
  rw [if_pos (List.length_pos.mpr h)]

/-- Witness for C4: a second generation attempt against a group that already
holds one installment fails and leaves the table as it was. -/
theorem claim_C4_witness :
    generate_installments_for_group [⟨1, 5, 1, ⟨2025, 1, 1⟩, false, false⟩] 5
      ⟨2025, 2, 2⟩ 3 (fun n => n) =
      (false, [⟨1, 5, 1, ⟨2025, 1, 1⟩, false, false⟩]) :=
  claim_C4_regenerate_rejected _ 5 _ 3 _ (by decide)

/-- C6 counterexample: a supplied commission of 50 lies outside [0,7], yet
group creation succeeds and persists the group (the code never range-checks
the commission), contradicting the claim that it fails and persists
nothing. -/
theorem claim_C6_counterexample :
    ¬((50 : ℚ) ≤ 7) ∧
    add_group_form [] 7 "g" 100 10 10 ⟨2025, 1, 1⟩ (some 50) =
      (true, [⟨7, "g", 100, 10, 10, ⟨2025, 1, 1⟩, some 50, true⟩]) := by
  constructor
  · norm_num
  · decide

/-- C6 amended: group creation fails (warning, nothing persisted) exactly when
name is empty, totalValue ≤ 0, subscriberCount ≤ 0 or durationMonths ≤ 0; the
commission is not range-checked; on success the group is stored with the fresh
identifier and `active = true`, and a success flag (not the identifier) is
returned. -/
theorem claim_C6_amended (db : List ChitGroup) (new_id : Nat) (name : String)
    (value : ℚ) (num_subscribers duration : ℤ) (start_date : PyDate)
    (commission : Option ℚ) :
    ((name = "" ∨ value ≤ 0 ∨ num_subscribers ≤ 0 ∨ duration ≤ 0) →
      add_group_form db new_id name value num_subscribers duration start_date
        commission = (false, db)) ∧
    (name ≠ "" → 0 < value → 0 < num_subscribers → 0 < duration →
      add_group_form db new_id name value num_subscribers duration start_date
        commission =
        (true, db ++ [⟨new_id, name, value, num_subscribers, duration,
          start_date, commission, true⟩])) := by
  constructor
  · intro h
    unfold add_group_form
    rw [if_neg]
    rintro ⟨h1, h2, h3, h4⟩
    rcases h with h | h | h | h
    · exact h1 h
    · exact absurd h2 (not_lt.mpr h)
    · exact absurd h3 (not_lt.mpr h)
    · exact absurd h4 (not_lt.mpr h)
  · intro h1 h2 h3 h4
    unfold add_group_form insert_group
    rw [if_pos ⟨h1, h2, h3, h4⟩]

/-- Witness for C6 amended: an empty name is rejected with nothing persisted;
a valid group is persisted with `active = true`. -/
theorem claim_C6_amended_witness :
    add_group_form [] 1 "" 5 5 5 ⟨2025, 1, 1⟩ none = (false, []) ∧
    add_group_form [] 1 "g" 5 5 5 ⟨2025, 1, 1⟩ none =
      (true, [⟨1, "g", 5, 5, 5, ⟨2025, 1, 1⟩, none, true⟩]) :=
  ⟨(claim_C6_amended [] 1 "" 5 5 5 ⟨2025, 1, 1⟩ none).1 (Or.inl rfl),
   (claim_C6_amended [] 1 "g" 5 5 5 ⟨2025, 1, 1⟩ none).2 (by decide) (by norm_num)
     (by decide) (by decide)⟩

/-- C7: recording a payment fails with nothing appended for every
`amount ≤ 0`, succeeds appending exactly one new row for every `amount > 0`,
and a repeated identical payment for the same (installment, subscriber) pair
is appended again with no deduplication. -/
theorem claim_C7_record_payment (db : List Payment)
    (new_id new_id2 installment_id subscriber_id : Nat) (amount : ℚ)
    (notes : String) (now now2 : Nat) :
    (amount ≤ 0 →
      record_payment_form db new_id installment_id subscriber_id amount notes now =
        (false, db)) ∧
    (0 < amount →
      record_payment_form db new_id installment_id subscriber_id amount notes now =
        (true, db ++ [⟨new_id, installment_id, subscriber_id, now, amount, notes⟩])) ∧
    (0 < amount →
      (record_payment_form
        (record_payment_form db new_id installment_id subscriber_id amount notes
          now).2 new_id2 installment_id subscriber_id amount notes now2).2 =
        db ++ [⟨new_id, installment_id, subscriber_id, now, amount, notes⟩,
          ⟨new_id2, installment_id, subscriber_id, now2, amount, notes⟩]) := by
  refine ⟨?_, ?_, ?_⟩
  · intro h
    unfold record_payment_form
    rw [if_neg (not_lt.mpr h)]
  · intro h
    unfold record_payment_form insert_payment
    rw [if_pos h]
  · intro h
    unfold record_payment_form insert_payment
    rw [if_pos h]
    simp only
    rw [if_pos h]
    simp

/-- Witness for C7: an amount of 0.01 succeeds and is appended; an amount of 0
fails with nothing appended. -/
theorem claim_C7_witness :
    record_payment_form [] 1 2 3 (1 / 100) "" 0 =
      (true, [⟨1, 2, 3, 0, 1 / 100, ""⟩]) ∧
    record_payment_form [] 1 2 3 0 "" 0 = (false, []) :=
  ⟨(claim_C7_record_payment [] 1 9 2 3 (1 / 100) "" 0 0).2.1 (by norm_num),
   (claim_C7_record_payment [] 1 9 2 3 0 "" 0 0).1 (by norm_num)⟩

/-- C8: the invariant `installment_amount = chit_value / duration` holds after
chit creation and is re-established by every edit (the stored amount is
recomputed from the new value and duration; the edit form's duration widget
enforces `duration ≥ 1`). -/
theorem claim_C8_installment_invariant :
    (∀ (db : List Chit) (cid : String) (v : ℚ) (dur : ℤ) (comm : ℚ)
      (sd : PyDate), ChitInvariant db →
      ChitInvariant (new_chit_form db cid v dur comm sd).2) ∧
    (∀ (db : List Chit) (cid : String) (v : ℚ) (dur : ℤ) (comm : ℚ)
      (sd : PyDate), 0 < dur → ChitInvariant db →
      ChitInvariant (edit_chit_form db cid v dur comm sd)) := by
  constructor
  · intro db cid v dur comm sd hinv
    unfold new_chit_form
    by_cases hc : cid ≠ "" ∧ 0 < v ∧ 0 < dur
    · rw [if_pos hc]
      intro c hc2
      rcases List.mem_append.mp hc2 with hmem | hmem
      · exact hinv c hmem
      · rcases List.mem_singleton.mp hmem with rfl
        show calculate_installment v dur = v / (dur : ℚ)
        unfold calculate_installment
        rw [if_pos hc.2.2]
    · rw [if_neg hc]
      exact hinv
  · intro db cid v dur comm sd hdur hinv
    intro c hc2
    obtain ⟨a, ha, rfl⟩ := List.mem_map.mp hc2
    by_cases heq : a.chit_id = cid
    · rw [if_pos heq]
      show calculate_installment v dur = v / (dur : ℚ)
      unfold calculate_installment
      rw [if_pos hdur]
    · rw [if_neg heq]
      exact hinv a ha

/-- Witness for C8: the invariant after creating a chit of value 6 over 3
months, and after editing a stored chit to value 8 over 4 months. -/
theorem claim_C8_witness :
    ChitInvariant (new_chit_form [] "c" 6 3 1 ⟨2025, 1, 1⟩).2 ∧
    ChitInvariant (edit_chit_form [⟨"c", 6, 3, 1, ⟨2025, 1, 1⟩, 2⟩] "c" 8 4 1
      ⟨2025, 1, 1⟩) :=
  ⟨claim_C8_installment_invariant.1 [] "c" 6 3 1 ⟨2025, 1, 1⟩
     (by intro c hc; cases hc),
   claim_C8_installment_invariant.2 [⟨"c", 6, 3, 1, ⟨2025, 1, 1⟩, 2⟩] "c" 8 4 1
     ⟨2025, 1, 1⟩ (by decide)
     (by intro c hc; rcases List.mem_singleton.mp hc with rfl; norm_num)⟩

/-- C9 counterexample: `recordPayment` stores the wall clock, not a
caller-supplied date, as `paymentDate`: two runs with identical caller inputs
but different clock readings store different payment rows, so dividend
distribution is not the only wall-clock-dependent operation. -/
theorem claim_C9_counterexample :
    (record_payment_form [] 1 2 3 5 "" 10).2.map (fun p => p.paymentDate) = [10] ∧
    (record_payment_form [] 1 2 3 5 "" 20).2.map (fun p => p.paymentDate) = [20] ∧
    (record_payment_form [] 1 2 3 5 "" 10).2 ≠
      (record_payment_form [] 1 2 3 5 "" 20).2 := by
  refine ⟨?_, ?_, ?_⟩ <;> decide

/-- C9 amended: wall-clock capture at write time occurs in dividend
distribution (distributionDate), payment recording (paymentDate) and
subscriber creation (createdDate); the remaining stored dates — dueDate,
joinDate, startDate — are caller-supplied. -/
theorem claim_C9_amended :
    (∀ (db : List Payment) (new_id installment_id subscriber_id : Nat)
      (amount : ℚ) (notes : String) (now : Nat), 0 < amount →
      (record_payment_form db new_id installment_id subscriber_id amount notes
        now).2 =
        db ++ [⟨new_id, installment_id, subscriber_id, now, amount, notes⟩]) ∧
    (∀ (db : List Subscriber) (new_id : Nat) (name phone address : String)
      (now : Nat),
      (insert_subscriber db new_id name phone address now).2 =
        db ++ [⟨new_id, name, phone, address, now, true⟩]) ∧
    (∀ (db : List Dividend) (cid : String) (members : List Nat)
      (winner : Nat) (ad : PyDate) (amt : ℚ) (today : PyDate),
      ∀ d ∈ distribute_dividend db cid members winner ad amt today,
        d ∈ db ∨ d.distribution_date = today) ∧
    (∀ (db : List Enrollment) (new_id subscriber_id group_id
      assigned_number : Nat) (join_date : PyDate),
      (insert_enrollment db new_id subscriber_id group_id assigned_number
        join_date).2 =
        db ++ [⟨new_id, subscriber_id, group_id, assigned_number, join_date⟩]) := by
  refine ⟨?_, fun _ _ _ _ _ _ => rfl, ?_, fun _ _ _ _ _ _ => rfl⟩
  · intro db new_id iid sid amount notes now h
    unfold record_payment_form insert_payment
    rw [if_pos h]
  · intro db cid members winner ad amt today d hd
    unfold distribute_dividend at hd
    rcases List.mem_append.mp hd with hmem | hmem
    · exact Or.inl hmem
    · obtain ⟨m, _, rfl⟩ := List.mem_map.mp hmem
      exact Or.inr rfl

/-- Witness for C9 amended: a concrete payment whose stored `paymentDate` is
the injected clock value, and a concrete dividend row stamped with the
injected distribution day. -/
theorem claim_C9_amended_witness :
    (record_payment_form [] 1 2 3 5 "" 77).2 = [⟨1, 2, 3, 77, 5, ""⟩] ∧
    ∀ d ∈ distribute_dividend [] "c" [1, 2] 1 ⟨2025, 1, 1⟩ 9 ⟨2025, 2, 2⟩,
      d ∈ ([] : List Dividend) ∨ d.distribution_date = ⟨2025, 2, 2⟩ :=
  ⟨claim_C9_amended.1 [] 1 2 3 5 "" 77 (by norm_num),
   claim_C9_amended.2.2.1 [] "c" [1, 2] 1 ⟨2025, 1, 1⟩ 9 ⟨2025, 2, 2⟩⟩

/-- When no installment rows exist for the group, the rows created for it by
`generate_installments_for_group` are exactly one row per month `k + 1` for
`k < duration`. -/
theorem generatedFor_of_empty (db : List Installment) (group_id : Nat)
    (start_date : PyDate) (duration : Nat) (freshId : Nat → Nat)
    (hempty : db.filter (fun i => i.groupId == group_id) = []) :
    generatedFor db group_id start_date duration freshId =
      (List.range duration).map (fun k =>
        ⟨freshId (k + 1), group_id, k + 1, add_months start_date k, false,
          false⟩) := by
  unfold generatedFor generate_installments_for_group
  rw [if_neg (by simp [hempty])]
  simp only [List.filter_append, hempty, List.nil_append]
  rw [List.filter_eq_self.mpr]
  intro a ha
  obtain ⟨k, _, rfl⟩ := List.mem_map.mp ha
  simp

/-- C1: generating installments for a group with none yet succeeds and
produces exactly `duration` rows for the group, with month numbers exactly
`1, 2, ..., duration` in order, the row for month `k + 1` due
`add_months start_date k` with both flags false, and the first due date equal
to the start date itself. -/
theorem claim_C1_generate_schedule (db : List Installment) (group_id : Nat)
    (start_date : PyDate) (duration : Nat) (freshId : Nat → Nat)
    (hdur : 1 ≤ duration)
    (hempty : db.filter (fun i => i.groupId == group_id) = [])
    (hval : start_date.Valid) :
    (generate_installments_for_group db group_id start_date duration freshId).1 =
      true ∧
    (generatedFor db group_id start_date duration freshId).length = duration ∧
    (generatedFor db group_id start_date duration freshId).map
      (fun i => i.monthNumber) = List.range' 1 duration ∧
    (∀ k (hk : k < (generatedFor db group_id start_date duration freshId).length),
      (generatedFor db group_id start_date duration freshId).get ⟨k, hk⟩ =
        ⟨freshId (k + 1), group_id, k + 1, add_months start_date k, false,
          false⟩) ∧
    ((generatedFor db group_id start_date duration freshId).map
      (fun i => i.dueDate)).head? = some start_date := by
  have hrows := generatedFor_of_empty db group_id start_date duration freshId hempty
  refine ⟨?_, ?_, ?_, ?_, ?_⟩
  · unfold generate_installments_for_group
    rw [if_neg (by simp [hempty])]
  · rw [hrows]; simp
  · rw [hrows, List.map_map, List.range'_eq_map_range]
    apply List.map_congr_left
    intro a _
    simp [Nat.add_comm]
  · intro k hk
    simp only [List.get_eq_getElem, hrows, List.getElem_map, List.getElem_range]
  · rw [hrows]
    cases duration with
    | zero => omega
    | succ n =>
      rw [List.range_succ_eq_map]
      simp [add_months_zero start_date hval]

/-- Witness for C1: generating a 2-month schedule from Jan-31-2025 for group 5
over an empty table. -/
theorem claim_C1_witness :
    (generate_installments_for_group [] 5 ⟨2025, 1, 31⟩ 2 (fun n => n)).1 =
      true ∧
    (generatedFor [] 5 ⟨2025, 1, 31⟩ 2 (fun n => n)).length = 2 ∧
    (generatedFor [] 5 ⟨2025, 1, 31⟩ 2 (fun n => n)).map
      (fun i => i.monthNumber) = List.range' 1 2 ∧
    (∀ k (hk : k < (generatedFor [] 5 ⟨2025, 1, 31⟩ 2 (fun n => n)).length),
      (generatedFor [] 5 ⟨2025, 1, 31⟩ 2 (fun n => n)).get ⟨k, hk⟩ =
        ⟨k + 1, 5, k + 1, add_months ⟨2025, 1, 31⟩ k, false, false⟩) ∧
    ((generatedFor [] 5 ⟨2025, 1, 31⟩ 2 (fun n => n)).map
      (fun i => i.dueDate)).head? = some ⟨2025, 1, 31⟩ :=
  claim_C1_generate_schedule [] 5 ⟨2025, 1, 31⟩ 2 (fun n => n) (by decide) rfl
    (by decide)

/-- C5: every row reported by the dues status for an installment is classified
"Paid" exactly when the sum of that enrollee's payments for the installment is
positive and "Due" otherwise (an absent sum being the empty sum 0); the
classification depends on nothing but that sum — in particular not on the
expected installment amount, so an under-payment is still "Paid". -/
theorem claim_C5_status_binary (db : DuesDB) (group_id month_number : Nat)
    (inst : Installment)
    (hinst : findInstallment db group_id month_number = some inst) :
    ∀ row ∈ get_payment_status_for_installment db group_id month_number,
      row.status = (if 0 < row.totalPaid then "Paid" else "Due") ∧
      (row.status = "Paid" ↔ 0 < row.totalPaid) ∧
      ∃ e ∈ db.enrollments, e.groupId = group_id ∧
        row.chitNumber = e.assignedChitNumber ∧
        row.totalPaid = paymentSum db.payments inst.id e.subscriberId := by
  intro row hrow
  unfold get_payment_status_for_installment at hrow
  rw [hinst] at hrow
  obtain ⟨e, he, hfe⟩ := List.mem_filterMap.mp hrow
  have he2 : e ∈ db.enrollments.filter (fun e => e.groupId == group_id) :=
    (List.perm_insertionSort _ _).mem_iff.mp he
  obtain ⟨hmem, hgid⟩ := List.mem_filter.mp he2
  obtain ⟨s, _, hseq⟩ := Option.map_eq_some'.mp hfe
  subst hseq
  refine ⟨rfl, ?_, ⟨e, hmem, by simpa using hgid, rfl, rfl⟩⟩
  show (if 0 < paymentSum db.payments inst.id e.subscriberId then "Paid"
    else "Due") = "Paid" ↔ 0 < paymentSum db.payments inst.id e.subscriberId
  split_ifs with h <;> simp [h]

/-- A concrete database for exercising the dues report: one installment of
group 1, one enrollment (subscriber 50, chit number 3) and a single payment of
1/2 against that installment. -/
def duesExample : DuesDB :=
  { installments := [⟨10, 1, 1, ⟨2025, 1, 31⟩, false, false⟩]
    enrollments := [⟨100, 50, 1, 3, ⟨2025, 1, 1⟩⟩]
    subscribers := [⟨50, "A", "p", "", 0, true⟩]
    payments := [⟨200, 10, 50, 0, 1 / 2, ""⟩] }

/-- The dues report of `duesExample` evaluated: the single enrollee is
classified "Paid" on the strength of the 1/2 payment alone. -/
theorem duesExample_status :
    get_payment_status_for_installment duesExample 1 1 =
      [⟨"A", 3, "Paid", 1 / 2⟩] := by
  norm_num [get_payment_status_for_installment, findInstallment, duesExample,
    paymentSum, List.insertionSort, List.orderedInsert, List.find?,
    List.filter, List.filterMap]

/-- Witness for C5: in `duesExample` the reported row for the under-paying
subscriber (paid 1/2) is classified "Paid" because its payment sum is
positive. -/
theorem claim_C5_witness :
    (⟨"A", 3, "Paid", 1 / 2⟩ : StatusRow).status = "Paid" ↔
      0 < (⟨"A", 3, "Paid", 1 / 2⟩ : StatusRow).totalPaid :=
  (claim_C5_status_binary duesExample 1 1 ⟨10, 1, 1, ⟨2025, 1, 31⟩, false, false⟩
    (by decide) ⟨"A", 3, "Paid", 1 / 2⟩
    (by rw [duesExample_status]; exact List.mem_singleton.mpr rfl)).2.1
